import Mathlib

/-!
Verification development for the fuse-sha1 repository.

The repository is a Python userspace passthrough filesystem (sha1fs.py) backed
by a SQLite checksum index (sha1db.py) with path/link helpers (fusesha1util.py).
This file gives a shallow embedding of the data model and of the operations the
claims are about:

* Python `posixpath` string functions used by the sources (`abspath`, `normpath`,
  `join`, `dirname`, `commonprefix`) and `str.replace`;
* a small filesystem state (regular files with inodes, symlinks, directories)
  with the `os` operations the sources call (`rename`, `link`, `symlink`,
  `rmdir`, `makedirs`, `listdir`, `stat`, `unlink`);
* the helpers of fusesha1util.py (`dstWithSubdirectory`, `moveFile`,
  `linkFile`, `symlinkFile`, `safeMakedirs`, `safeUnlink`, `isLinkAsNum`);
* the SQLite table `files(path, chksum, symlink)` and the SQL statements from
  sha1db.py, including SQLite's `replace` function and `LIKE` matching;
* the Sha1DB operations `updateChecksum` / `_updateChecksumAndLink` /
  `_hardlinkDup`, `updatePath`, `dedup`, and `__init__`'s algorithm selection;
* the retry/blacklist logic of `Sha1FS.release` from sha1fs.py.

Exceptions are modelled with `Except`; `with sqliteConn(...)` rolls the
database back on an exception, so operations return the caller's database
unchanged in their error payload, while filesystem effects performed before
the exception persist.
-/

namespace FuseSha1

/-! ### Character and string primitives (Python / SQLite semantics) -/

/-- Lower-case an ASCII letter; other characters unchanged.  SQLite's default
`LIKE` is case-insensitive exactly on the ASCII range. -/
def lowerAscii (c : Char) : Char :=
  if 'A' ≤ c ∧ c ≤ 'Z' then Char.ofNat (c.toNat + 32) else c

/-- Character comparison used by SQLite `LIKE` for a plain pattern character. -/
def likeCharEq (p c : Char) : Bool :=
  lowerAscii p == lowerAscii c

/-- All suffixes of a list, longest first, ending with `[]`. -/
def tails : List Char → List (List Char)
  | [] => [[]]
  | c :: s => (c :: s) :: tails s

/-- SQLite `LIKE` matching: `likeMatch pat s` is true when the string `s`
matches the pattern `pat`, where the wildcard `%` matches any sequence of
characters (so the rest of the pattern must match some suffix of `s`),
`_` matches exactly one character, and any other character matches up to
ASCII case folding. -/
def likeMatch : List Char → List Char → Bool
  | [], s => s.isEmpty
  | p :: ps, s =>
    if p = '%' then (tails s).any (fun t => likeMatch ps t)
    else
      match s with
      | [] => false
      | c :: s' => (p == '_' || likeCharEq p c) && likeMatch ps s'

/-- Fuel-driven scan for `strReplaceList`.  Each step consumes at least one
character of `s`, so fuel `s.length` never runs out before `s` is empty; the
fuel only makes the structural recursion explicit. -/
def strReplaceListAux (old new : List Char) : Nat → List Char → List Char
  | 0, s => s
  | fuel + 1, s =>
    if old.isPrefixOf s then new ++ strReplaceListAux old new fuel (s.drop old.length)
    else
      match s with
      | [] => []
      | c :: s' => c :: strReplaceListAux old new fuel s'

/-- SQLite's `replace(X, Y, Z)` on character lists: every occurrence of `old`
in `s` is replaced by `new`, scanning left to right without rescanning the
replacement text; an empty `old` leaves `s` unchanged (SQLite behavior). -/
def strReplaceList (old new s : List Char) : List Char :=
  if old = [] then s else strReplaceListAux old new s.length s

/-- SQLite `replace(X, Y, Z)` on strings. -/
def strReplace (s old new : String) : String :=
  String.mk (strReplaceList old.data new.data s.data)

/-- Python `str.replace(old, new, 1)` on character lists: only the first
occurrence of `old` is replaced (an empty `old` matches at the start). -/
def replaceFirstList (old new : List Char) : List Char → List Char
  | [] => if old.isPrefixOf [] then new else []
  | c :: s' =>
    if old.isPrefixOf (c :: s') then new ++ (c :: s').drop old.length
    else c :: replaceFirstList old new s'

/-- Python `str.replace(old, new, 1)` on strings. -/
def replaceFirst (s old new : String) : String :=
  String.mk (replaceFirstList old.data new.data s.data)

/-- Character-wise longest common prefix of two lists
(`os.path.commonprefix`). -/
def commonPrefixChars : List Char → List Char → List Char
  | a :: as, b :: bs => if a = b then a :: commonPrefixChars as bs else []
  | _, _ => []

/-- `os.path.commonprefix([a, b])`: the longest common string prefix,
computed character by character (it need not end at a path separator). -/
def commonPrefixStr (a b : String) : String :=
  String.mk (commonPrefixChars a.data b.data)

/-! ### posixpath functions -/

/-- `str.startswith` (on the underlying character lists). -/
def pStartsWith (s pre : String) : Bool := pre.data.isPrefixOf s.data

/-- `str.endswith` (on the underlying character lists). -/
def pEndsWith (s suf : String) : Bool := suf.data.isSuffixOf s.data

/-- Python `p.split("/")`: split at every `/`, keeping empty pieces. -/
def splitOnSlash : List Char → List (List Char)
  | [] => [[]]
  | c :: s =>
    let rest := splitOnSlash s
    if c = '/' then [] :: rest
    else
      match rest with
      | [] => [[c]]
      | piece :: more => (c :: piece) :: more

/-- Python `"/".join(parts)`. -/
def joinWithSlash : List String → String
  | [] => ""
  | [x] => x
  | x :: y :: xs => x ++ "/" ++ joinWithSlash (y :: xs)

/-- `os.path.isabs`. -/
def isAbs (p : String) : Bool := pStartsWith p "/"

/-- `posixpath.join` for two arguments: an absolute second argument discards
the first; otherwise a single separator is inserted unless one is present. -/
def joinPath (a b : String) : String :=
  if pStartsWith b "/" then b
  else if a = "" ∨ pEndsWith a "/" then a ++ b
  else a ++ "/" ++ b

/-- One step of `posixpath.normpath`'s component scan: skip empty and `.`
components, push a component, and let `..` pop the previous component unless
at the start of a relative path or after an unresolved `..`. -/
def normpathStep (slashes : Nat) (acc : List String) (comp : String) : List String :=
  if comp = "" ∨ comp = "." then acc
  else if comp ≠ ".." ∨ (slashes = 0 ∧ acc = []) ∨ acc.getLast? = some ".." then
    acc ++ [comp]
  else if acc ≠ [] then acc.dropLast
  else acc

/-- `posixpath.normpath`: collapse repeated separators and resolve `.` and
`..` components textually.  An initial `//` (but not `///` or more) is
preserved, per POSIX. -/
def normpath (p : String) : String :=
  if p = "" then "."
  else
    let slashes : Nat :=
      if pStartsWith p "/" then
        (if pStartsWith p "//" ∧ ¬ pStartsWith p "///" then 2 else 1)
      else 0
    let comps := ((splitOnSlash p.data).map String.mk).foldl (normpathStep slashes) []
    let out := String.mk (List.replicate slashes '/') ++ joinWithSlash comps
    if out = "" then "." else out

/-- `os.path.abspath` relative to a current working directory `cwd`:
`normpath(join(cwd, p))` (for absolute `p` the `cwd` is discarded by `join`). -/
def abspath (cwd p : String) : String :=
  normpath (joinPath cwd p)

/-- `posixpath.dirname`: everything up to the final `/`, with trailing
separators stripped unless the result consists only of separators. -/
def dirname (p : String) : String :=
  let head := (p.data.reverse.dropWhile (fun c => c ≠ '/')).reverse
  if head ≠ [] ∧ head.any (fun c => c ≠ '/') then
    String.mk (head.reverse.dropWhile (fun c => c = '/')).reverse
  else String.mk head

/-! ### Filesystem model

A small state for the backing filesystem.  Regular files are a map from path
to inode number, with file contents stored per inode so hard links share
contents by construction; symlinks map a path to their target string;
directories are a plain list of paths.  `cwd` is the process working
directory used by `os.path.abspath`.  Directory entries are not given inodes:
the claims only compare inodes of regular files.  -/

/-- Errors raised by the Python sources: SQLite errors, `OSError`/`IOError`
from `os` calls and path helpers, `NameError` for an unassigned variable, and
a generic `raise Exception(msg)`. -/
inductive SqlErr where
  | noSuchColumn (c : String)
  | uniqueViolation (c : String)
  deriving DecidableEq, Repr

inductive PyErr where
  | sql (e : SqlErr)
  | osError (msg : String)
  | ioError (msg : String)
  | nameError (n : String)
  | exception (msg : String)
  deriving DecidableEq, Repr

structure FileSystem where
  cwd : String
  /-- regular files: path to inode number (hard links share an inode) -/
  files : List (String × Nat)
  /-- file contents keyed by inode -/
  inodes : List (Nat × List Nat)
  /-- symbolic links: path to target string -/
  symlinks : List (String × String)
  /-- directories -/
  dirs : List String
  deriving DecidableEq, Repr

/-- Is there a regular file at `p` (no symlink following)? -/
def isFileB (fs : FileSystem) (p : String) : Bool :=
  (fs.files.lookup p).isSome

/-- `os.path.islink`: is there a symlink at `p`? -/
def isLinkB (fs : FileSystem) (p : String) : Bool :=
  (fs.symlinks.lookup p).isSome

/-- Is there a directory at `p`? -/
def isDirB (fs : FileSystem) (p : String) : Bool :=
  decide (p ∈ fs.dirs)

/-- Follow symlinks at `p` (with fuel bounding chain length, as the kernel
bounds `ELOOP`); returns the non-symlink path `p` resolves to, or `none` if
the chain dangles or is too long. -/
def resolve (fs : FileSystem) : Nat → String → Option String
  | 0, _ => none
  | fuel + 1, p =>
    match fs.symlinks.lookup p with
    | some t => resolve fs fuel t
    | none => if isFileB fs p || isDirB fs p then some p else none

/-- `os.path.exists`: follows symlinks, so a broken symlink does not exist. -/
def pathExists (fs : FileSystem) (p : String) : Bool :=
  (resolve fs (fs.symlinks.length + 1) p).isSome

/-- Does anything (file, symlink — broken or not — or directory) occupy `p`?
(`os.path.lexists`; what `os.symlink` and `os.link` collide with). -/
def lexistsB (fs : FileSystem) (p : String) : Bool :=
  isFileB fs p || isLinkB fs p || isDirB fs p

/-- `os.stat(p).st_ino` for the regular file `p` resolves to (the model gives
inodes only to regular files; the sources only stat index entries, which are
regular files or symlinks to them). -/
def statIno (fs : FileSystem) (p : String) : Option Nat :=
  match resolve fs (fs.symlinks.length + 1) p with
  | some q => fs.files.lookup q
  | none => none

/-- Contents of the regular file that `p` resolves to (what `open(p, 'rb')`
reads). -/
def readFile (fs : FileSystem) (p : String) : Except PyErr (List Nat) :=
  match resolve fs (fs.symlinks.length + 1) p with
  | some q =>
    match fs.files.lookup q with
    | some ino =>
      match fs.inodes.lookup ino with
      | some bytes => .ok bytes
      | none => .error (.ioError "read")
    | none => .error (.ioError "is a directory")
  | none => .error (.ioError "no such file")

/-- All paths that have an entry in the filesystem. -/
def entryNames (fs : FileSystem) : List String :=
  fs.files.map (fun e => e.1) ++ fs.symlinks.map (fun e => e.1) ++ fs.dirs

/-- `os.listdir`: the entries whose parent is `d`; raises if `d` is not a
directory. -/
def listdir (fs : FileSystem) (d : String) : Except PyErr (List String) :=
  if isDirB fs d then
    .ok ((entryNames fs).filter (fun p => dirname p == d && p != d))
  else .error (.osError "listdir: not a directory")

/-- `os.rename` for regular files and symlinks (the sources only rename into
a fresh destination path whose parent exists; an existing destination entry
is replaced, per POSIX).  Directory renames are outside this model. -/
def osRename (fs : FileSystem) (src dst : String) : Except PyErr FileSystem :=
  if pathExists fs (dirname dst) then
    match fs.files.lookup src with
    | some ino =>
      .ok { fs with
              files := (dst, ino) ::
                ((fs.files.filter (fun e => e.1 != src)).filter (fun e => e.1 != dst)),
              symlinks := fs.symlinks.filter (fun e => e.1 != dst) }
    | none =>
      match fs.symlinks.lookup src with
      | some t =>
        .ok { fs with
                symlinks := (dst, t) ::
                  ((fs.symlinks.filter (fun e => e.1 != src)).filter (fun e => e.1 != dst)),
                files := fs.files.filter (fun e => e.1 != dst) }
      | none => .error (.osError "rename: no such file")
  else .error (.osError "rename: destination parent missing")

/-- `os.rmdir`: remove an empty directory. -/
def osRmdir (fs : FileSystem) (d : String) : Except PyErr FileSystem :=
  match listdir fs d with
  | .error e => .error e
  | .ok [] => .ok { fs with dirs := fs.dirs.filter (fun x => x != d) }
  | .ok (_ :: _) => .error (.osError "rmdir: directory not empty")

/-- `os.unlink`: remove a regular file or a symlink (not a directory). -/
def osUnlink (fs : FileSystem) (p : String) : Except PyErr FileSystem :=
  if isFileB fs p then .ok { fs with files := fs.files.filter (fun e => e.1 != p) }
  else if isLinkB fs p then .ok { fs with symlinks := fs.symlinks.filter (fun e => e.1 != p) }
  else .error (.osError "unlink: no such file")

/-- `os.link(target, link)`: create a hard link at `link` to the inode
`target` resolves to. -/
def osLink (fs : FileSystem) (target link : String) : Except PyErr FileSystem :=
  if lexistsB fs link then .error (.osError "link: file exists")
  else
    match statIno fs target with
    | some ino => .ok { fs with files := (link, ino) :: fs.files }
    | none => .error (.osError "link: no such file")

/-- `os.symlink(target, link)`: create a symlink at `link` with target text
`target`. -/
def osSymlink (fs : FileSystem) (target link : String) : Except PyErr FileSystem :=
  if lexistsB fs link then .error (.osError "symlink: file exists")
  else .ok { fs with symlinks := (link, target) :: fs.symlinks }

/-- The chain of ancestors `os.makedirs` would create for `p`, outermost
first (fuel-driven `dirname` iteration; `dirname` strictly shortens a path
until it reaches `/` or the empty string). -/
def ancestorChainAux : Nat → String → List String
  | 0, _ => []
  | fuel + 1, p =>
    let d := dirname p
    if d = p ∨ d = "" then [p]
    else ancestorChainAux fuel d ++ [p]

/-- `os.makedirs`: create `p` and any missing ancestors.  Raises if `p`
itself already exists (callers in the sources guard with `os.path.exists`). -/
def osMakedirs (fs : FileSystem) (p : String) : Except PyErr FileSystem :=
  if p = "" then .error (.osError "makedirs: empty path")
  else if pathExists fs p then .error (.osError "makedirs: file exists")
  else
    .ok { fs with
            dirs := fs.dirs ++
              (ancestorChainAux (p.length + 1) p).filter (fun d => !(isDirB fs d)) }

/-! ### fusesha1util.py helpers -/

/-- `fusesha1util.fileChecksum(path, checksum_func)`: stream the file at
`path` through the digest accumulator and return the hex digest.  The digest
algorithm itself lives in `hashlib`, outside the repository; it is passed in
as the function `hash` from file bytes to hex string, exactly as the source
passes `checksum_func`. -/
def fileChecksum (hash : List Nat → String) (fs : FileSystem) (path : String) :
    Except PyErr String :=
  match readFile fs path with
  | .ok bytes => .ok (hash bytes)
  | .error e => .error e

/-- `fusesha1util.safeMakedirs(path)`: ensure the parent directory of `path`
exists (creating intermediates) and return it. -/
def safeMakedirs (fs : FileSystem) (path : String) :
    Except PyErr (FileSystem × String) :=
  let parent := dirname path
  if ¬ pathExists fs parent then
    match osMakedirs fs parent with
    | .ok fs' => .ok (fs', parent)
    | .error e => .error e
  else .ok (fs, parent)

/-- `fusesha1util.safeUnlink(path)`: unlink `path` if `os.path.exists(path)`
(which follows symlinks, so a broken symlink is left in place). -/
def safeUnlink (fs : FileSystem) (path : String) : Except PyErr FileSystem :=
  if pathExists fs path then osUnlink fs path else .ok fs

/-- `fusesha1util.dstWithSubdirectory(src, dstdir)`: absolutize both, take
their character-wise common prefix, extend it with `/` if it does not end in
one, strip its first occurrence from the absolute source, and join the
remainder under `dstdir`; raises `IOError` on empty inputs or when the result
equals the absolute source. -/
def dstWithSubdirectory (cwd src dstdir : String) : Except PyErr String :=
  if src = "" then .error (.ioError "dstWithSubdirectory requires src to be specified")
  else if dstdir = "" then .error (.ioError "dstWithSubdirectory requires dstdir to be specified")
  else
    let absSrc := abspath cwd src
    let dstdir' := abspath cwd dstdir
    let pfx := commonPrefixStr dstdir' absSrc
    let pfx := if pEndsWith pfx "/" then pfx else pfx ++ "/"
    let newdst := joinPath dstdir' (replaceFirst absSrc pfx "")
    if newdst = absSrc then
      .error (.ioError "Unable to determine new destination; same path")
    else .ok newdst

/-- `fusesha1util.moveFile(src, dst, rmEmptyDirs)`: make `dst`'s parent,
rename `src` to `dst`, then remove `src`'s old parent if it is now empty.
The `rmEmptyDirs` parameter appears only in the signature of the source —
its body never reads it. -/
def moveFile (fs : FileSystem) (src dst : String) (rmEmptyDirs : Bool) :
    Except PyErr FileSystem :=
  match safeMakedirs fs dst with
  | .error e => .error e
  | .ok (fs1, _) =>
    match osRename fs1 src dst with
    | .error e => .error e
    | .ok fs2 =>
      let oldparent := dirname src
      match listdir fs2 oldparent with
      | .error e => .error e
      | .ok entries =>
        if entries.length ≤ 0 then osRmdir fs2 oldparent else .ok fs2

/-- `fusesha1util.symlinkFile(target, link)`: requires `target` to exist
(policy stricter than POSIX `symlink`), absolutizes both, makes `link`'s
parent, unlinks an existing `link`, and creates the symlink. -/
def symlinkFile (fs : FileSystem) (target link : String) : Except PyErr FileSystem :=
  if ¬ pathExists fs target then
    .error (.osError "symlinkFile requires a target to be specified")
  else if link = "" then
    .error (.osError "symlinkFile requires a link path to be specified")
  else
    let absTarget := abspath fs.cwd target
    let absLink := abspath fs.cwd link
    match safeMakedirs fs absLink with
    | .error e => .error e
    | .ok (fs1, _) =>
      match safeUnlink fs1 absLink with
      | .error e => .error e
      | .ok fs2 => osSymlink fs2 absTarget absLink

/-- `fusesha1util.linkFile(target, link)`: hard-link `link` to `target`; a
no-op when `link` exists and already shares `target`'s inode; otherwise the
existing `link` is removed and the hard link created. -/
def linkFile (fs : FileSystem) (target link : String) : Except PyErr FileSystem :=
  if ¬ pathExists fs target then
    .error (.osError "linkFile requires a target to be specified")
  else if link = "" then
    .error (.osError "linkFile requires a link path to be specified")
  else
    let sameFile := pathExists fs link && (statIno fs target == statIno fs link)
    if sameFile then .ok fs
    else
      let absTarget := abspath fs.cwd target
      let absLink := abspath fs.cwd link
      match safeMakedirs fs absLink with
      | .error e => .error e
      | .ok (fs1, _) =>
        match safeUnlink fs1 absLink with
        | .error e => .error e
        | .ok fs2 => osLink fs2 absTarget absLink

/-- `fusesha1util.isLinkAsNum(path)`: `1` if `path` is a symlink, else `0`
(the integer stored in the `symlink` column). -/
def isLinkAsNum (fs : FileSystem) (path : String) : Nat :=
  if isLinkB fs path then 1 else 0

/-! ### The SQLite index (sha1db.py)

The schema created by `Sha1DB.__init__` is

    create table if not exists files(
      path varchar not null primary key,
      chksum varchar not null,
      symlink boolean default 0);
    create index csum_idx on files(chksum);
    create table if not exists versioning(chksum_type varchar not null);

A row of `files` therefore has exactly the three columns `path`, `chksum`
and `symlink`.  SQLite refuses to prepare a statement that references a
column a table does not have (`no such column`), which matters below because
two statements in sha1db.py reference a column `link`. -/

structure Row where
  path : String
  chksum : String
  symlink : Nat
  deriving DecidableEq, Repr

structure Db where
  rows : List Row
  deriving DecidableEq, Repr

/-- The columns of the `files` table, from the DDL in `Sha1DB.__init__`. -/
def filesColumns : List String := ["path", "chksum", "symlink"]

/-- sha1db.py line 20. -/
def CHECKSUM_UPDATE : String :=
  "insert or replace into files(path, chksum, symlink) values(?, ?, ?);"

/-- sha1db.py line 21.  Note the SET target is the column `link`, which is
not among `filesColumns`. -/
def LINK_UPDATE : String := "update files set link = ? where path = ?;"

/-- sha1db.py line 23. -/
def PATH_UPDATE : String := "update files set path = replace(path, ?, ?) where path like ?;"

/-- sha1db.py line 24. -/
def REMOVE_ROW : String := "delete from files where path = ?;"

/-- Execute `CHECKSUM_UPDATE` (`insert or replace`): any existing row for
`path` is replaced. -/
def dbUpsert (db : Db) (path chksum : String) (symlink : Nat) : Db :=
  ⟨⟨path, chksum, symlink⟩ :: db.rows.filter (fun r => r.path != path)⟩

/-- Execute `REMOVE_ROW`. -/
def dbDelete (db : Db) (path : String) : Db :=
  ⟨db.rows.filter (fun r => r.path != path)⟩

/-- Execute the peer query of `Sha1DB._hardlinkDup`:
`select path from files where chksum = ? and path != ? and symlink = 0;`. -/
def selectPeers (db : Db) (chksum path : String) : List String :=
  (db.rows.filter
      (fun r => r.chksum == chksum && r.path != path && r.symlink == 0)).map
    (fun r => r.path)

/-- Execute `LINK_UPDATE` (`update files set link = ? where path = ?`).
SQLite checks the SET target against the schema when it prepares the
statement; `link` is not a column of `files`, so preparation fails with
`no such column: link` and the row set is never touched.  The `.ok` branch is
provably unreachable (`"link" ∈ filesColumns` is decidably false); as the
schema has no `link` column there is no field a reachable branch could set. -/
def execLinkUpdate (db : Db) (_v : Nat) (_path : String) : Except SqlErr Db :=
  if "link" ∈ filesColumns then .ok db
  else .error (.noSuchColumn "link")

/-- The columns referenced by the duplicate-scan query of `Sha1DB.dedup`
(sha1db.py lines 69-74): its select list is `chksum, path, link` and its
WHERE clause adds `symlink = 0 and link = 1`. -/
def dupScanColumns : List String := ["chksum", "path", "link", "symlink"]

/-- Execute the duplicate-scan query of `Sha1DB.dedup`.  Like `LINK_UPDATE`
it references the nonexistent column `link`, so SQLite fails to prepare it;
the `.ok` branch is provably unreachable and no row can be produced against
this schema. -/
def execDupScan (db : Db) : Except SqlErr (List (String × String × Nat)) :=
  if dupScanColumns.all (fun c => c ∈ filesColumns) then .ok []
  else .error (.noSuchColumn "link")

/-- Execute `update files set symlink = 1 where path = ?;` (sha1db.py line
95, the offline dedup pass).  All referenced columns exist, so this one
succeeds. -/
def execSetSymlink1 (db : Db) (path : String) : Db :=
  ⟨db.rows.map (fun r => if r.path = path then { r with symlink := 1 } else r)⟩

/-- The row rewrite performed by `PATH_UPDATE` on one row: if the path
matches the LIKE pattern `old || '%'`, `replace(path, old, new)` substitutes
every occurrence of `old`; otherwise the row is untouched. -/
def rewriteRow (old new : String) (r : Row) : Row :=
  if likeMatch (old.data ++ [ '%' ]) r.path.data then
    { r with path := strReplace r.path old new }
  else r

/-- Execute `PATH_UPDATE` row by row in table order, enforcing the primary
key on `path` the way SQLite does during the update scan: a rewritten path
that collides with any other current row (already-updated or not yet
visited) aborts the statement. -/
def updatePathRows (old new : String) : List Row → List Row → Except SqlErr (List Row)
  | [], acc => .ok acc.reverse
  | r :: rest, acc =>
    let r' := rewriteRow old new r
    if r'.path ∈ acc.map Row.path ∨ r'.path ∈ rest.map Row.path then
      .error (.uniqueViolation "files.path")
    else updatePathRows old new rest (r' :: acc)

/-- `Sha1DB.updatePath(old, new)`: a single execution of `PATH_UPDATE` with
binds `(old, new, old || '%')` inside `sqliteConn` (an error rolls back, so
the caller's database is unchanged on error). -/
def updatePath (old new : String) (db : Db) : Except SqlErr Db :=
  match updatePathRows old new db.rows [] with
  | .ok rs => .ok ⟨rs⟩
  | .error e => .error e

/-! ### Sha1DB online update and hard-linking -/

/-- The peer-filter loop of `Sha1DB._hardlinkDup`: `os.stat` each peer path
(raising if one has disappeared) and keep those whose inode differs from
`pathInode`, in query order. -/
def collectLinks (fs : FileSystem) (pathInode : Nat) :
    List String → Except PyErr (List String)
  | [] => .ok []
  | l :: ls =>
    match statIno fs l with
    | none => .error (.osError "stat: no such file")
    | some i =>
      match collectLinks fs pathInode ls with
      | .error e => .error e
      | .ok rest => .ok (if i ≠ pathInode then l :: rest else rest)

/-- The relink loop of `Sha1DB._hardlinkDup`: for every target, execute
`LINK_UPDATE` and then `linkFile(canonicalLink, target)`.  An error carries
the filesystem as mutated so far; the database is rolled back by the caller. -/
def linkLoop (fs : FileSystem) (db : Db) (canonicalLink : String) :
    List String → Except (PyErr × FileSystem) (FileSystem × Db)
  | [] => .ok (fs, db)
  | t :: ts =>
    match execLinkUpdate db 1 t with
    | .error e => .error (.sql e, fs)
    | .ok db' =>
      match linkFile fs canonicalLink t with
      | .error e => .error (e, fs)
      | .ok fs' => linkLoop fs' db' canonicalLink ts

/-- `Sha1DB._hardlinkDup(path, chksum)`: skip symlinks; otherwise stat
`path`, query its non-symlink peers with the same checksum, keep those on a
different inode, and if any remain, relink them (and `path`) to the first
one. -/
def hardlinkDup (fs : FileSystem) (db : Db) (path chksum : String) :
    Except (PyErr × FileSystem) (FileSystem × Db) :=
  if isLinkB fs path then .ok (fs, db)
  else
    match statIno fs path with
    | none => .error (.osError "stat: no such file", fs)
    | some pathInode =>
      match collectLinks fs pathInode (selectPeers db chksum path) with
      | .error e => .error (e, fs)
      | .ok links =>
        match links with
        | [] => .ok (fs, db)
        | canonicalLink :: rest => linkLoop fs db canonicalLink (rest ++ [path])

/-- `Sha1DB._updateChecksumAndLink(path)`: a nonexistent backing file is
logged and skipped; otherwise compute the checksum, upsert the row with the
symlink flag, and run the hard-link step. -/
def updateChecksumAndLink (hash : List Nat → String) (fs : FileSystem) (db : Db)
    (path : String) : Except (PyErr × FileSystem) (FileSystem × Db) :=
  if pathExists fs path then
    match fileChecksum hash fs path with
    | .error e => .error (e, fs)
    | .ok chksum =>
      hardlinkDup fs (dbUpsert db path chksum (isLinkAsNum fs path)) path chksum
  else .ok (fs, db)

/-- `Sha1DB.updateChecksum(path)`: `_updateChecksumAndLink` under
`sqliteConn`; on an exception the transaction is rolled back, so the error
carries the caller's database unchanged together with the filesystem as
mutated before the raise. -/
def updateChecksum (hash : List Nat → String) (fs : FileSystem) (db : Db)
    (path : String) : Except (PyErr × FileSystem × Db) (FileSystem × Db) :=
  match updateChecksumAndLink hash fs db path with
  | .ok r => .ok r
  | .error (e, fs') => .error (e, fs', db)

/-! ### Sha1DB offline dedup pass -/

/-- Insert a path into the per-checksum map `pathmap`, keeping first-seen
group order (scan rows arrive ordered by checksum). -/
def addToGroup (gs : List (String × List String)) (c p : String) :
    List (String × List String) :=
  match gs with
  | [] => [(c, [p])]
  | (c', ps) :: rest =>
    if c' = c then (c', ps ++ [p]) :: rest else (c', ps) :: addToGroup rest c p

/-- Build `pathmap` from the duplicate-scan rows. -/
def groupByChksum (rows : List (String × String × Nat)) :
    List (String × List String) :=
  rows.foldl (fun gs r => addToGroup gs r.1 r.2.1) []

/-- The inner loop of `Sha1DB.dedup` over one checksum's paths: move each
file under `dupdir` (`rmEmptyDirs` is passed `not doSymlink`), then either
delete its row, or mark it `symlink = 1` and call
`symlinkFile(canonicalPath, path)` — but `canonicalPath` is never assigned
anywhere in sha1db.py, so evaluating it raises `NameError` before the
symlink can be created. -/
def dedupPaths (fs : FileSystem) (db : Db) (dupdir : String) (doSymlink : Bool) :
    List String → Except (PyErr × FileSystem) (FileSystem × Db)
  | [] => .ok (fs, db)
  | path :: rest =>
    match dstWithSubdirectory fs.cwd path dupdir with
    | .error e => .error (e, fs)
    | .ok dst =>
      match moveFile fs path dst (!doSymlink) with
      | .error e => .error (e, fs)
      | .ok fs1 =>
        if !doSymlink then dedupPaths fs1 (dbDelete db path) dupdir doSymlink rest
        else
          let _db1 := execSetSymlink1 db path
          .error (.nameError "canonicalPath", fs1)

/-- The outer loop of `Sha1DB.dedup` over `pathmap`: drop paths that are
symlinks on disk, then process the group. -/
def dedupGroups (fs : FileSystem) (db : Db) (dupdir : String) (doSymlink : Bool) :
    List (String × List String) → Except (PyErr × FileSystem) (FileSystem × Db)
  | [] => .ok (fs, db)
  | (_chksum, paths) :: rest =>
    match dedupPaths fs db dupdir doSymlink (paths.filter (fun p => !(isLinkB fs p))) with
    | .error e => .error e
    | .ok (fs1, db1) => dedupGroups fs1 db1 dupdir doSymlink rest

/-- The transactional body of `Sha1DB.dedup`: run the duplicate scan (which
fails to prepare — see `execDupScan`), group, and process.  An exception
rolls the transaction back: the error carries the caller's database. -/
def dedupBody (fs : FileSystem) (db : Db) (dupdir : String) (doSymlink : Bool) :
    Except (PyErr × FileSystem × Db) (FileSystem × Db) :=
  match execDupScan db with
  | .error e => .error (.sql e, fs, db)
  | .ok scanRows =>
    match dedupGroups fs db dupdir doSymlink (groupByChksum scanRows) with
    | .error (e, fs') => .error (e, fs', db)
    | .ok r => .ok r

/-- `Sha1DB.dedup(dupdir, doSymlink)`: refuse (raise) when `dupdir` exists
and `os.listdir(dupdir)` is non-empty — this check runs before the
transaction and before any file is touched — then run the transactional
body. -/
def dedup (fs : FileSystem) (db : Db) (dupdir : String) (doSymlink : Bool) :
    Except (PyErr × FileSystem × Db) (FileSystem × Db) :=
  if pathExists fs dupdir then
    match listdir fs dupdir with
    | .error e => .error (e, fs, db)
    | .ok entries =>
      if ¬ entries.length ≤ 0 then
        .error (.exception (dupdir ++ " is not empty; refusing to move files"), fs, db)
      else dedupBody fs db dupdir doSymlink
  else dedupBody fs db dupdir doSymlink

/-! ### Sha1DB construction (algorithm selection) -/

/-- The durable database file: the `files` table plus the single-column
`versioning` table. -/
structure DbFile where
  rows : List Row
  versioning : List String
  deriving DecidableEq, Repr

/-- `Sha1DB.__init__(database, useMd5)`: when the database file does not
exist (`none`), create the schema and insert `"md5"` or `"sha1"` into
`versioning`; when it exists, read `chksum_type` back, overwriting the
`usingMd5` default once per row.  Returns the database file together with
the final `usingMd5` flag (`self.checksum` is `hashlib.md5` when the flag is
true and `hashlib.sha1` otherwise). -/
def sha1dbInit (dbFile : Option DbFile) (useMd5 : Bool) : DbFile × Bool :=
  match dbFile with
  | none => (⟨[], [if useMd5 then "md5" else "sha1"]⟩, useMd5)
  | some f => (f, f.versioning.foldl (fun _ t => "md5" == t) useMd5)

/-! ### sha1fs.py: release retry and blacklist -/

/-- First index of `sub` in `s`, if any (Python `str.find` without the `-1`
encoding). -/
def findSubIdx (sub : List Char) : List Char → Option Nat
  | [] => if sub.isPrefixOf [] then some 0 else none
  | c :: s' =>
    if sub.isPrefixOf (c :: s') then some 0
    else (findSubIdx sub s').map (fun i => i + 1)

/-- Python `path.find(sub)`: first index, or `-1` when absent. -/
def pyFind (path sub : String) : Int :=
  match findSubIdx sub.data path.data with
  | some i => (i : Int)
  | none => -1

/-- `Sha1FS._blacklisted(path)`: `path.find(".Trash") >= 0`. -/
def blacklisted (path : String) : Bool :=
  pyFind path ".Trash" ≥ 0

/-- The retry loop of `Sha1FS.release`:
`while (not saved and count < 5): count += 1; try: updateChecksum; saved = True; except: log`.
`succeeds k` tells whether the `k`-th call to `updateChecksum` returns
(rather than raises); exceptions are swallowed by the `except` branch, so
the loop itself never raises.  Returns the final `(saved, count)`. -/
def releaseRetry (succeeds : Nat → Bool) (saved : Bool) (count : Nat) : Bool × Nat :=
  if _h : saved = false ∧ count < 5 then
    releaseRetry succeeds (succeeds (count + 1)) (count + 1)
  else (saved, count)
termination_by 5 - count
decreasing_by simp_wf; omega

/-- Number of `updateChecksum` calls made by `Sha1FS.release(path, ...)`:
none when the path is blacklisted, otherwise what the retry loop consumed.
After the loop the function only logs; it returns to FUSE normally in every
case. -/
def releaseCalls (path : String) (succeeds : Nat → Bool) : Nat :=
  if blacklisted path then 0 else (releaseRetry succeeds false 0).2

/-! ### Concrete states used by the theorems below -/

/-- Two regular files `/a` and `/b` with identical contents on different
inodes. -/
def fsC1 : FileSystem := ⟨"/", [("/a", 1), ("/b", 2)], [(1, [7]), (2, [7])], [], ["/"]⟩

/-- An index that already tracks `/a` with the digest of its bytes. -/
def dbC1 : Db := ⟨[⟨"/a", "h", 0⟩]⟩

/-- Two duplicate regular files under `/r`, different inodes. -/
def fsC4 : FileSystem :=
  ⟨"/", [("/r/a", 1), ("/r/b", 2)], [(1, [5]), (2, [5])], [], ["/", "/r"]⟩

/-- An index with two non-symlink rows sharing a digest. -/
def dbC4 : Db := ⟨[⟨"/r/a", "h", 0⟩, ⟨"/r/b", "h", 0⟩]⟩

/-- A filesystem whose `/dup` directory already contains an entry. -/
def fsC6 : FileSystem := ⟨"/", [("/dup/x", 3)], [(3, [1])], [], ["/", "/dup"]⟩

/-- An arbitrary index used alongside `fsC6`. -/
def dbC6 : Db := ⟨[⟨"/q", "k", 0⟩]⟩

/-- A file `/s/f` alone in its directory, with `/d` ready as a destination. -/
def fsC10 : FileSystem := ⟨"/", [("/s/f", 1)], [(1, [0])], [], ["/", "/s", "/d"]⟩

/-- `fsC10` after `os.rename("/s/f", "/d/f")`. -/
def fsC10ren : FileSystem := ⟨"/", [("/d/f", 1)], [(1, [0])], [], ["/", "/s", "/d"]⟩

/-! ## Theorems -/

/-! ### Helper lemmas about `likeMatch` and `updatePathRows` -/

theorem self_mem_tails (s : List Char) : s ∈ tails s := by
  cases s <;> simp [tails]

theorem nil_mem_tails (s : List Char) : [] ∈ tails s := by
  induction s with
  | nil => simp [tails]
  | cons c s' ih => simp [tails, ih]

theorem likeMatch_percent_any (s : List Char) : likeMatch [ '%' ] s = true := by
  rw [show likeMatch [ '%' ] s = (tails s).any (fun t => likeMatch [] t) from rfl]
  rw [List.any_eq_true]
  exact ⟨[], nil_mem_tails s, rfl⟩

theorem likeMatch_cons_percent (ps s : List Char) (h : likeMatch ps s = true) :
    likeMatch ('%' :: ps) s = true := by
  rw [show likeMatch ('%' :: ps) s = (tails s).any (fun t => likeMatch ps t) from rfl]
  rw [List.any_eq_true]
  exact ⟨s, self_mem_tails s, h⟩

theorem likeMatch_append_percent (old : List Char) :
    ∀ r : List Char, likeMatch (old ++ [ '%' ]) (old ++ r) = true := by
  induction old with
  | nil => intro r; exact likeMatch_percent_any r
  | cons o os ih =>
    intro r
    show likeMatch (o :: (os ++ [ '%' ])) (o :: (os ++ r)) = true
    by_cases ho : o = '%'
    · subst ho
      rw [show likeMatch ('%' :: (os ++ [ '%' ])) ('%' :: (os ++ r))
            = (tails ('%' :: (os ++ r))).any (fun t => likeMatch (os ++ [ '%' ]) t) from rfl]
      rw [List.any_eq_true]
      exact ⟨os ++ r, by simp [tails, self_mem_tails], ih r⟩
    · by_cases hu : o = '_'
      · subst hu
        simp [likeMatch, ih r]
      · simp [likeMatch, ho, hu, likeCharEq, ih r]

theorem updatePathRows_ok (old new : String) :
    ∀ (rows acc out : List Row),
      updatePathRows old new rows acc = .ok out →
      out = acc.reverse ++ rows.map (rewriteRow old new) := by
  intro rows
  induction rows with
  | nil =>
    intro acc out h
    simp only [updatePathRows] at h
    cases h
    simp
  | cons r rest ih =>
    intro acc out h
    simp only [updatePathRows] at h
    split at h
    · exact absurd h (by simp)
    · have := ih _ _ h
      simp only [this, List.reverse_cons, List.map_cons]
      simp

theorem releaseRetry_count_le (succeeds : Nat → Bool) :
    ∀ (n count : Nat) (saved : Bool), 5 - count ≤ n →
      (releaseRetry succeeds saved count).2 ≤ max 5 count := by
  intro n
  induction n with
  | zero =>
    intro count saved h
    unfold releaseRetry
    rw [dif_neg (fun hc => absurd hc.2 (by omega))]
    exact Nat.le_max_right 5 count
  | succ n ih =>
    intro count saved h
    unfold releaseRetry
    split
    · next hc =>
      have h2 := ih (count + 1) (succeeds (count + 1)) (by omega)
      have hmax : max 5 (count + 1) = 5 := Nat.max_eq_left (by omega)
      calc (releaseRetry succeeds (succeeds (count + 1)) (count + 1)).2
          ≤ max 5 (count + 1) := h2
        _ = 5 := hmax
        _ ≤ max 5 count := Nat.le_max_left 5 count
    · exact Nat.le_max_right 5 count

/-! ### Claim theorems -/

/-- C1: the claim states that a successful `update_checksum(p)` with a
non-symlink peer of the same digest on a different inode leaves `p`
hard-linked to that peer.  The code cannot do this: before any
`linkFile` call, `_hardlinkDup` executes `LINK_UPDATE`, which targets the
column `link` that the `files` table does not have, so the whole update
raises `no such column: link`, rolls back, and the two files keep distinct
inodes.  Here `/a` and `/b` have identical bytes, the index already tracks
`/a` with the matching digest, `/b` exists and is not a symlink — exactly
the claim's scenario — and the call errors with both filesystem and index
unchanged. -/
theorem updateChecksum_hardlink_never_links :
    updateChecksum (fun _ => "h") fsC1 dbC1 "/b"
        = .error (.sql (.noSuchColumn "link"), fsC1, dbC1) ∧
    pathExists fsC1 "/b" = true ∧
    isLinkB fsC1 "/b" = false ∧
    (⟨"/a", "h", 0⟩ : Row) ∈ dbC1.rows ∧
    statIno fsC1 "/a" = some 1 ∧ statIno fsC1 "/b" = some 2 :=
  ⟨rfl, rfl, rfl, by decide, rfl, rfl⟩

/-- C2 (counterexample): `update_path("/a/b", "/a")` on a row whose path is
`/a/b/b/x/a/b/b` produces `/a/b/x/a/b` — SQL `replace` rewrote **every**
occurrence of `/a/b` — and not `/a/b/x/a/b/b`, the row the claim demands
(only the leading prefix replaced); moreover the produced row still starts
with the old prefix, contradicting "no row whose path starts with old
remains". -/
theorem updatePath_leading_prefix_only_cex :
    updatePath "/a/b" "/a" ⟨[⟨"/a/b/b/x/a/b/b", "h", 0⟩]⟩
        = .ok ⟨[⟨"/a/b/x/a/b", "h", 0⟩]⟩ ∧
    (⟨"/a/b/x/a/b/b", "h", 0⟩ : Row) ∉ (⟨[⟨"/a/b/x/a/b", "h", 0⟩]⟩ : Db).rows ∧
    pStartsWith "/a/b/x/a/b" "/a/b" = true :=
  ⟨rfl, by decide, rfl⟩

/-- C2 (amended): after a successful `update_path(old, new)`, every row
whose path matches the SQL LIKE pattern `old || '%'` — in particular every
row whose path starts with `old` — is replaced by exactly one row whose path
is the original with **every** occurrence of `old` replaced by `new` (not
only the leading one), and rows whose paths do not match the pattern are
unchanged. -/
theorem updatePath_rewrites_every_occurrence (old new : String) (db db' : Db)
    (h : updatePath old new db = .ok db') :
    db'.rows = db.rows.map (rewriteRow old new) ∧
    db'.rows.length = db.rows.length ∧
    (∀ r ∈ db.rows, old.data.isPrefixOf r.path.data = true →
      (⟨strReplace r.path old new, r.chksum, r.symlink⟩ : Row) ∈ db'.rows) ∧
    (∀ r ∈ db.rows, likeMatch (old.data ++ [ '%' ]) r.path.data = false →
      r ∈ db'.rows) := by
  have hrows : db'.rows = db.rows.map (rewriteRow old new) := by
    unfold updatePath at h
    cases heq : updatePathRows old new db.rows [] with
    | ok rs =>
      rw [heq] at h
      cases h
      simpa using updatePathRows_ok old new db.rows [] rs heq
    | error e => rw [heq] at h; cases h
  refine ⟨hrows, by rw [hrows]; simp, ?_, ?_⟩
  · intro r hr hp
    have hlm : likeMatch (old.data ++ [ '%' ]) r.path.data = true := by
      obtain ⟨t, ht⟩ := List.isPrefixOf_iff_prefix.mp hp
      rw [← ht]
      exact likeMatch_append_percent old.data t
    have hrw : rewriteRow old new r = ⟨strReplace r.path old new, r.chksum, r.symlink⟩ := by
      unfold rewriteRow
      rw [if_pos hlm]
    rw [hrows, ← hrw]
    exact List.mem_map_of_mem _ hr
  · intro r hr hlm
    have hrw : rewriteRow old new r = r := by
      unfold rewriteRow
      rw [if_neg (by simp [hlm])]
    rw [hrows, ← hrw]
    exact List.mem_map_of_mem _ hr

/-- C2 (witness for the amended theorem): a concrete successful
`update_path` instance, with the conclusion evaluated at it. -/
theorem updatePath_rewrites_every_occurrence_witness :
    (⟨[⟨"/new/f", "h", 0⟩]⟩ : Db).rows
      = (⟨[⟨"/old/f", "h", 0⟩]⟩ : Db).rows.map (rewriteRow "/old" "/new") :=
  (updatePath_rewrites_every_occurrence "/old" "/new"
    ⟨[⟨"/old/f", "h", 0⟩]⟩ ⟨[⟨"/new/f", "h", 0⟩]⟩ rfl).1

/-- C3: the claim states that during the online dedup step each relink
target is marked by `UPDATE files SET symlink = 1 WHERE path = ?`.  The
source's `LINK_UPDATE` is `update files set link = ? where path = ?`
instead: it targets a column `link` that the `files` schema does not
contain, so it can never be prepared, no row is ever marked, and the
duplicate-scan query (which also references `link`) fails for the same
reason. -/
theorem linkUpdate_no_such_column :
    (∀ (db : Db) (v : Nat) (p : String),
        execLinkUpdate db v p = .error (.noSuchColumn "link")) ∧
    (∀ db : Db, execDupScan db = .error (.noSuchColumn "link")) ∧
    "link" ∉ filesColumns :=
  ⟨fun _ _ _ => rfl, fun _ => rfl, by decide⟩

/-- C4: the claim describes the offline dedup pass with `do_symlink` true as
keeping each moved row, marking it symlinked, and symlinking the original
path to the canonical path.  On a database with two non-symlink duplicate
rows and a fresh `dupdir`, `dedup` instead raises `no such column: link`
while preparing the duplicate scan, before moving any file or touching any
row (and even past that scan, the symlink call names `canonicalPath`, a
variable never assigned in sha1db.py, so it would raise `NameError`). -/
theorem dedup_symlink_pass_raises :
    dedup fsC4 dbC4 "/dup" true = .error (.sql (.noSuchColumn "link"), fsC4, dbC4) ∧
    (⟨"/r/a", "h", 0⟩ : Row) ∈ dbC4.rows ∧
    (⟨"/r/b", "h", 0⟩ : Row) ∈ dbC4.rows ∧
    pathExists fsC4 "/dup" = false :=
  ⟨rfl, by decide, by decide, rfl⟩

/-- C5: `update_checksum(p)` for a path that does not exist on the backing
filesystem (for example a broken symlink) logs, returns success, and leaves
the filesystem and every index row unchanged. -/
theorem updateChecksum_missing_path_noop (hash : List Nat → String)
    (fs : FileSystem) (db : Db) (path : String)
    (h : pathExists fs path = false) :
    updateChecksum hash fs db path = .ok (fs, db) := by
  simp [updateChecksum, updateChecksumAndLink, h]

/-- C5 (witness): a broken symlink `/ghost -> /gone`; the update succeeds
with state untouched. -/
theorem updateChecksum_missing_path_noop_witness :
    updateChecksum (fun _ => "x")
        ⟨"/", [], [], [("/ghost", "/gone")], ["/"]⟩ ⟨[⟨"/ghost", "d", 1⟩]⟩ "/ghost"
      = .ok (⟨"/", [], [], [("/ghost", "/gone")], ["/"]⟩, ⟨[⟨"/ghost", "d", 1⟩]⟩) :=
  updateChecksum_missing_path_noop _ _ _ _ rfl

/-- C6: when `dupdir` exists and `os.listdir(dupdir)` is non-empty,
`dedup` raises before opening the transaction and before moving any file:
the error carries the filesystem and the index exactly as passed in. -/
theorem dedup_nonempty_dupdir_refuses (fs : FileSystem) (db : Db)
    (dupdir : String) (doSymlink : Bool) (e : String) (es : List String)
    (h1 : pathExists fs dupdir = true)
    (h2 : listdir fs dupdir = .ok (e :: es)) :
    dedup fs db dupdir doSymlink
      = .error (.exception (dupdir ++ " is not empty; refusing to move files"), fs, db) := by
  simp [dedup, h1, h2]

/-- C6 (witness): `/dup` contains `/dup/x`; `dedup` refuses with state
unchanged. -/
theorem dedup_nonempty_dupdir_refuses_witness :
    dedup fsC6 dbC6 "/dup" false
      = .error (.exception ("/dup" ++ " is not empty; refusing to move files"), fsC6, dbC6) :=
  dedup_nonempty_dupdir_refuses fsC6 dbC6 "/dup" false "/dup/x" [] rfl rfl

/-- C7: on a pre-existing database file the constructor reads the digest
algorithm from the `versioning` table and the `useMd5` argument is ignored
(first conjunct: any database file with a non-empty `versioning` table — as
every database this code creates has — yields the same algorithm whatever
the argument); consequently the algorithm in effect never changes across
the database's lifetime (second conjunct: re-opening a freshly created
database with any argument returns the creation-time algorithm). -/
theorem sha1db_algorithm_stable :
    (∀ (f : DbFile) (a b : Bool), f.versioning ≠ [] →
        (sha1dbInit (some f) a).2 = (sha1dbInit (some f) b).2) ∧
    (∀ a b : Bool, (sha1dbInit (some (sha1dbInit none a).1) b).2 = a) := by
  constructor
  · intro f a b hne
    show f.versioning.foldl (fun _ t => "md5" == t) a
        = f.versioning.foldl (fun _ t => "md5" == t) b
    cases hv : f.versioning with
    | nil => exact absurd hv hne
    | cons x xs => simp [List.foldl]
  · intro a b
    cases a <;> rfl

/-- C7 (witness): a database whose `versioning` table holds `"sha1"` gives
the same algorithm for both constructor arguments. -/
theorem sha1db_algorithm_stable_witness :
    (sha1dbInit (some ⟨[], ["sha1"]⟩) true).2
      = (sha1dbInit (some ⟨[], ["sha1"]⟩) false).2 :=
  sha1db_algorithm_stable.1 ⟨[], ["sha1"]⟩ true false (by decide)

/-- C8: `dstWithSubdirectory` absolutizes both arguments, strips the common
prefix (extended to end at a path separator) from the source, and joins the
remainder under `dstdir`; in particular the spec's two boundary examples
hold, for any current working directory. -/
theorem dstWithSubdirectory_examples (cwd : String) :
    dstWithSubdirectory cwd "/usr/local/test.txt" "/media/cdrom"
        = .ok "/media/cdrom/usr/local/test.txt" ∧
    dstWithSubdirectory cwd "/media/cdrom/othersubdir/test.txt" "/media/cdrom/subdir"
        = .ok "/media/cdrom/subdir/othersubdir/test.txt" :=
  ⟨rfl, rfl⟩

/-- C9: `Sha1FS.release` attempts `updateChecksum` at most 5 times (first
conjunct); a blacklisted path — one containing `.Trash` — triggers no
attempt at all (second conjunct); and when every attempt fails the loop
still terminates normally with `saved = false` after exactly 5 attempts,
the failure only being logged, never raised to the caller (third conjunct;
the model's `release` is a total function, so no exception escapes). -/
theorem release_retry_bounded :
    (∀ (path : String) (succeeds : Nat → Bool), releaseCalls path succeeds ≤ 5) ∧
    (∀ (path : String) (succeeds : Nat → Bool),
        blacklisted path = true → releaseCalls path succeeds = 0) ∧
    (∀ succeeds : Nat → Bool, (∀ k, succeeds k = false) →
        releaseRetry succeeds false 0 = (false, 5)) := by
  refine ⟨?_, ?_, ?_⟩
  · intro path succeeds
    unfold releaseCalls
    split
    · omega
    · have h := releaseRetry_count_le succeeds 5 0 false (by omega)
      simpa using h
  · intro path succeeds h
    simp [releaseCalls, h]
  · intro succeeds h
    unfold releaseRetry
    rw [dif_pos ⟨rfl, by omega⟩, h (0 + 1)]
    unfold releaseRetry
    rw [dif_pos ⟨rfl, by omega⟩, h (0 + 1 + 1)]
    unfold releaseRetry
    rw [dif_pos ⟨rfl, by omega⟩, h (0 + 1 + 1 + 1)]
    unfold releaseRetry
    rw [dif_pos ⟨rfl, by omega⟩, h (0 + 1 + 1 + 1 + 1)]
    unfold releaseRetry
    rw [dif_pos ⟨rfl, by omega⟩, h (0 + 1 + 1 + 1 + 1 + 1)]
    unfold releaseRetry
    rw [dif_neg (fun hc => absurd hc.2 (by omega))]

/-- C9 (witness): a `.Trash` path makes no attempt; with every attempt
failing the loop stops after 5 attempts with `saved = false`. -/
theorem release_retry_bounded_witness :
    releaseCalls "/mnt/.Trash-99/f" (fun _ => false) = 0 ∧
    releaseRetry (fun _ => false) false 0 = (false, 5) :=
  ⟨release_retry_bounded.2.1 "/mnt/.Trash-99/f" (fun _ => false) (by decide),
   release_retry_bounded.2.2 (fun _ => false) (fun _ => rfl)⟩

/-- C10: `moveFile(src, dst, rmEmptyDirs)` never reads `rmEmptyDirs` — its
result is identical for both flag values — and whenever `src`'s parent
directory is empty after the rename it is removed, so the offline dedup
pass with `do_symlink` true (which passes `rmEmptyDirs = not doSymlink =
false`) still removes emptied source directories. -/
theorem moveFile_ignores_rmEmptyDirs (fs fs1 fs2 : FileSystem)
    (src dst parent : String) (b b' : Bool)
    (h1 : safeMakedirs fs dst = .ok (fs1, parent))
    (h2 : osRename fs1 src dst = .ok fs2)
    (h3 : listdir fs2 (dirname src) = .ok []) :
    moveFile fs src dst b = moveFile fs src dst b' ∧
    moveFile fs src dst b
      = .ok { fs2 with dirs := fs2.dirs.filter (fun x => x != dirname src) } ∧
    (∀ fs3, moveFile fs src dst b = .ok fs3 → isDirB fs3 (dirname src) = false) := by
  have hmove : moveFile fs src dst b
      = .ok { fs2 with dirs := fs2.dirs.filter (fun x => x != dirname src) } := by
    simp [moveFile, osRmdir, h1, h2, h3]
  refine ⟨rfl, hmove, ?_⟩
  intro fs3 hok
  rw [hmove] at hok
  cases hok
  simp [isDirB, List.mem_filter]

/-- C10 (witness): moving `/s/f` (alone in `/s`) to `/d/f` gives the same
result whether `rmEmptyDirs` is true or false, and `/s` is removed. -/
theorem moveFile_ignores_rmEmptyDirs_witness :
    moveFile fsC10 "/s/f" "/d/f" true = moveFile fsC10 "/s/f" "/d/f" false ∧
    moveFile fsC10 "/s/f" "/d/f" true
      = .ok { fsC10ren with dirs := fsC10ren.dirs.filter (fun x => x != dirname "/s/f") } :=
  ⟨(moveFile_ignores_rmEmptyDirs fsC10 fsC10 fsC10ren "/s/f" "/d/f" "/d"
      true false rfl rfl rfl).1,
   (moveFile_ignores_rmEmptyDirs fsC10 fsC10 fsC10ren "/s/f" "/d/f" "/d"
      true false rfl rfl rfl).2.1⟩

end FuseSha1
